import Mathlib

/-!
Shallow embedding of the nova-can repository core:
the CAN identifier and frame-header codec with the per-node acceptance
filter (from src/c/nova_can.h), the fixed-point motor control loop and
its command callbacks (from examples/motor_driver_mock.c), and the
catch-up deadline loop of the scheduler (from examples/motor_driver_mock.c,
main).  Machine integers are modelled as Nat (for the unsigned C types,
with explicit reduction modulo two to the bit width where C arithmetic
can wrap) and as Int with explicit two-complement wrapping for int16.
-/

/-! ## Generic bit-manipulation helper lemmas -/

/-- Reducing modulo a power of two distributes over bitwise or. -/
theorem lor_mod_two_pow (a b k : Nat) :
    (a ||| b) % 2 ^ k = (a % 2 ^ k) ||| (b % 2 ^ k) := by
  apply Nat.eq_of_testBit_eq
  intro i
  simp only [Nat.testBit_mod_two_pow, Nat.testBit_lor]
  cases h : decide (i < k) <;> simp

/-- Division by a power of two distributes over bitwise or. -/
theorem lor_div_two_pow (a b k : Nat) :
    (a ||| b) / 2 ^ k = (a / 2 ^ k) ||| (b / 2 ^ k) := by
  apply Nat.eq_of_testBit_eq
  intro i
  simp only [← Nat.shiftRight_eq_div_pow, Nat.testBit_shiftRight, Nat.testBit_lor]

/-- Bitwise and distributes over bitwise or on the right. -/
theorem and_lor_right (a b c : Nat) :
    (a ||| b) &&& c = (a &&& c) ||| (b &&& c) := by
  apply Nat.eq_of_testBit_eq
  intro i
  simp only [Nat.testBit_and, Nat.testBit_lor]
  cases a.testBit i <;> cases b.testBit i <;> cases c.testBit i <;> rfl

/-- If the low k bits of t are zero and m fits in k bits, t and m share no bits. -/
theorem and_eq_zero_of_low_high (k t m : Nat) (ht : t % 2 ^ k = 0) (hm : m < 2 ^ k) :
    t &&& m = 0 := by
  apply Nat.eq_of_testBit_eq
  intro i
  simp only [Nat.testBit_and, Nat.zero_testBit]
  rcases Nat.lt_or_ge i k with hik | hik
  · have hbit := Nat.testBit_mod_two_pow t k i
    rw [ht] at hbit
    simp only [Nat.zero_testBit, decide_eq_true (by omega : i < k), Bool.true_and] at hbit
    rw [← hbit, Bool.false_and]
  · have : m < 2 ^ i := lt_of_lt_of_le hm (Nat.pow_le_pow_right (by omega) hik)
    rw [Nat.testBit_lt_two_pow this, Bool.and_false]

/-- Bitwise or of bit-disjoint values (split at bit k) is addition. -/
theorem lor_eq_add (k a b : Nat) (ha : a % 2 ^ k = 0) (hb : b < 2 ^ k) :
    a ||| b = a + b := by
  have h1 : (a ||| b) % 2 ^ k = b := by
    rw [lor_mod_two_pow, ha, Nat.mod_eq_of_lt hb]
    simp
  have h2 : (a ||| b) / 2 ^ k = a / 2 ^ k := by
    rw [lor_div_two_pow, Nat.div_eq_of_lt hb]
    simp
  have h3 : 2 ^ k * (a / 2 ^ k) = a := Nat.mul_div_cancel' (Nat.dvd_of_mod_eq_zero ha)
  calc a ||| b = 2 ^ k * ((a ||| b) / 2 ^ k) + (a ||| b) % 2 ^ k :=
        (Nat.div_add_mod _ _).symm
    _ = 2 ^ k * (a / 2 ^ k) + b := by rw [h1, h2]
    _ = a + b := by rw [h3]

/-! Specialisations of and-with-mask to modular reduction, for the literal
masks appearing in the codec. -/

theorem and_mask1 (x : Nat) : x &&& 0x01 = x % 2 := Nat.and_one_is_mod x

theorem and_mask7 (x : Nat) : x &&& 0x07 = x % 8 := by
  have h := Nat.and_pow_two_sub_one_eq_mod x 3
  norm_num at h
  exact h

theorem and_mask31 (x : Nat) : x &&& 0x1F = x % 32 := by
  have h := Nat.and_pow_two_sub_one_eq_mod x 5
  norm_num at h
  exact h

theorem and_mask63 (x : Nat) : x &&& 0x3F = x % 64 := by
  have h := Nat.and_pow_two_sub_one_eq_mod x 6
  norm_num at h
  exact h

theorem and_mask511 (x : Nat) : x &&& 0x1FF = x % 512 := by
  have h := Nat.and_pow_two_sub_one_eq_mod x 9
  norm_num at h
  exact h

theorem and_mask29 (x : Nat) : x &&& 0x1FFFFFFF = x % 536870912 := by
  have h := Nat.and_pow_two_sub_one_eq_mod x 29
  norm_num at h
  exact h

/-! ## Identifier codec (src/c/nova_can.h) -/

/-- The NovaCAN_CANID struct.  Fields carry the values of the C integer
fields (priority, port_id, destination_id, source_id are uint8 or uint16
in the source); theorems that depend on a field fitting its declared bit
width carry that bound as a hypothesis. -/
structure NovaCAN_CANID where
  priority : Nat
  service : Bool
  service_request : Bool
  port_id : Nat
  destination_id : Nat
  source_id : Nat
deriving DecidableEq, Repr

/-- The NOVA_CAN_FRAME_HEADER struct. -/
structure NOVA_CAN_FRAME_HEADER where
  start_of_transfer : Bool
  end_of_transfer : Bool
  transfer_id : Nat
deriving DecidableEq, Repr

/-- nova_can_serialize_canid: pack the struct fields into a 32-bit id by
shift and or.  Each shifted term is reduced modulo two to the 32 exactly as
the C uint32 arithmetic does. -/
def nova_can_serialize_canid (c : NovaCAN_CANID) : Nat :=
  ((c.priority <<< 26) % 2 ^ 32) |||
  ((c.service.toNat <<< 25) % 2 ^ 32) |||
  ((c.service_request.toNat <<< 24) % 2 ^ 32) |||
  ((c.port_id <<< 14) % 2 ^ 32) |||
  ((c.destination_id <<< 7) % 2 ^ 32) |||
  (c.source_id % 2 ^ 32)

/-- nova_can_deserialize_canid: extract every field by shift and mask.
The C bool cast of a masked bit is the test against zero, written here as
an equality with one since the mask is a single bit. -/
def nova_can_deserialize_canid (canid : Nat) : NovaCAN_CANID where
  priority := (canid >>> 26) &&& 0x07
  service := ((canid >>> 25) &&& 0x01) == 1
  service_request := ((canid >>> 24) &&& 0x01) == 1
  port_id := (canid >>> 14) &&& 0x1FF
  destination_id := (canid >>> 7) &&& 0x3F
  source_id := canid &&& 0x3F

/-- nova_can_get_canid_filter: fails (returns -1, here none) when the node
id exceeds 0x3F, otherwise writes node_id shifted left by 7. -/
def nova_can_get_canid_filter (node_id : Nat) : Option Nat :=
  if node_id > 0x3F then none else some (node_id <<< 7)

/-- nova_can_get_canid_mask: unconditionally writes the static mask and
returns success. -/
def nova_can_get_canid_mask : Nat := 0x3F <<< 7

/-- nova_can_serialize_frame_header: pack the three header fields into one
byte.  The transfer id is or-ed in without masking, exactly as the source
does. -/
def nova_can_serialize_frame_header (h : NOVA_CAN_FRAME_HEADER) : Nat :=
  (h.start_of_transfer.toNat <<< 7) |||
  (h.end_of_transfer.toNat <<< 6) |||
  h.transfer_id

/-- nova_can_deserialize_frame_header applied to the first payload byte. -/
def nova_can_deserialize_frame_header (b : Nat) : NOVA_CAN_FRAME_HEADER where
  start_of_transfer := ((b >>> 7) &&& 0x01) == 1
  end_of_transfer := ((b >>> 6) &&& 0x01) == 1
  transfer_id := b &&& 0x1F

/-- With every field inside its declared bit range, the or of the shifted
fields is their sum: the bit ranges are disjoint. -/
theorem serialize_canid_eq_add (c : NovaCAN_CANID)
    (hp : c.priority < 8) (hport : c.port_id < 512)
    (hd : c.destination_id < 64) (hs : c.source_id < 64) :
    nova_can_serialize_canid c =
      c.priority * 2 ^ 26 + c.service.toNat * 2 ^ 25 +
      c.service_request.toNat * 2 ^ 24 + c.port_id * 2 ^ 14 +
      c.destination_id * 2 ^ 7 + c.source_id := by
  have hsb : c.service.toNat ≤ 1 := Bool.toNat_le c.service
  have hrb : c.service_request.toNat ≤ 1 := Bool.toNat_le c.service_request
  unfold nova_can_serialize_canid
  simp only [Nat.shiftLeft_eq]
  norm_num
  have m1 : c.priority * 67108864 % 4294967296 = c.priority * 67108864 :=
    Nat.mod_eq_of_lt (by omega)
  have m2 : c.service.toNat * 33554432 % 4294967296 = c.service.toNat * 33554432 :=
    Nat.mod_eq_of_lt (by omega)
  have m3 : c.service_request.toNat * 16777216 % 4294967296
      = c.service_request.toNat * 16777216 :=
    Nat.mod_eq_of_lt (by omega)
  have m4 : c.port_id * 16384 % 4294967296 = c.port_id * 16384 :=
    Nat.mod_eq_of_lt (by omega)
  have m5 : c.destination_id * 128 % 4294967296 = c.destination_id * 128 :=
    Nat.mod_eq_of_lt (by omega)
  have m6 : c.source_id % 4294967296 = c.source_id := Nat.mod_eq_of_lt (by omega)
  rw [m1, m2, m3, m4, m5, m6]
  have e1 : c.priority * 67108864 ||| c.service.toNat * 33554432
      = c.priority * 67108864 + c.service.toNat * 33554432 :=
    lor_eq_add 26 _ _ (by omega) (by omega)
  rw [e1]
  have e2 : c.priority * 67108864 + c.service.toNat * 33554432
        ||| c.service_request.toNat * 16777216
      = c.priority * 67108864 + c.service.toNat * 33554432
        + c.service_request.toNat * 16777216 :=
    lor_eq_add 25 _ _ (by omega) (by omega)
  rw [e2]
  have e3 : c.priority * 67108864 + c.service.toNat * 33554432
        + c.service_request.toNat * 16777216 ||| c.port_id * 16384
      = c.priority * 67108864 + c.service.toNat * 33554432
        + c.service_request.toNat * 16777216 + c.port_id * 16384 :=
    lor_eq_add 24 _ _ (by omega) (by omega)
  rw [e3]
  have e4 : c.priority * 67108864 + c.service.toNat * 33554432
        + c.service_request.toNat * 16777216 + c.port_id * 16384
        ||| c.destination_id * 128
      = c.priority * 67108864 + c.service.toNat * 33554432
        + c.service_request.toNat * 16777216 + c.port_id * 16384
        + c.destination_id * 128 :=
    lor_eq_add 14 _ _ (by omega) (by omega)
  rw [e4]
  have e5 : c.priority * 67108864 + c.service.toNat * 33554432
        + c.service_request.toNat * 16777216 + c.port_id * 16384
        + c.destination_id * 128 ||| c.source_id
      = c.priority * 67108864 + c.service.toNat * 33554432
        + c.service_request.toNat * 16777216 + c.port_id * 16384
        + c.destination_id * 128 + c.source_id :=
    lor_eq_add 7 _ _ (by omega) (by omega)
  rw [e5]

/-- Shifting left by the same amount distributes over bitwise and. -/
theorem shiftLeft_and_shiftLeft (a b n : Nat) :
    (a <<< n) &&& (b <<< n) = (a &&& b) <<< n := by
  apply Nat.eq_of_testBit_eq
  intro i
  simp only [Nat.testBit_shiftLeft, Nat.testBit_and]
  cases h : decide (i ≥ n) <;> simp

/-- Claim C2: for every Identifier whose fields are all within their
declared ranges, deserialising the serialised 29-bit id reproduces the
Identifier exactly. -/
theorem canid_roundtrip (c : NovaCAN_CANID) (hp : c.priority < 8)
    (hport : c.port_id < 512) (hd : c.destination_id < 64)
    (hs : c.source_id < 64) :
    nova_can_deserialize_canid (nova_can_serialize_canid c) = c := by
  rw [serialize_canid_eq_add c hp hport hd hs]
  obtain ⟨p, sv, sr, port, d, s⟩ := c
  simp only at hp hport hd hs
  simp only [nova_can_deserialize_canid, NovaCAN_CANID.mk.injEq,
    Nat.shiftRight_eq_div_pow, and_mask1, and_mask7, and_mask63, and_mask511]
  norm_num
  cases sv <;> cases sr <;>
    simp only [Bool.toNat_true, Bool.toNat_false] <;>
    refine ⟨by omega, ?_, ?_, by omega, by omega, by omega⟩ <;>
    simp only [beq_iff_eq, beq_eq_false_iff_ne, ne_eq] <;> try omega

/-- Witness for canid_roundtrip at the identifier used by the repository
test suite. -/
theorem canid_roundtrip_witness :
    (3 < 8 ∧ 52 < 512 ∧ 7 < 64 ∧ 1 < 64) ∧
    nova_can_deserialize_canid
        (nova_can_serialize_canid ⟨3, false, false, 52, 7, 1⟩)
      = ⟨3, false, false, 52, 7, 1⟩ :=
  ⟨by decide,
   canid_roundtrip ⟨3, false, false, 52, 7, 1⟩ (by decide) (by decide)
     (by decide) (by decide)⟩

/-- Claim C6: the filter derivation fails exactly for node ids above 63,
and for node ids up to 63 it succeeds with the node id shifted left by 7. -/
theorem canid_filter_success_iff (n : Nat) :
    (nova_can_get_canid_filter n = none ↔ 63 < n)
    ∧ (n ≤ 63 → nova_can_get_canid_filter n = some (n <<< 7)) := by
  unfold nova_can_get_canid_filter
  by_cases h : n > 0x3F
  · rw [if_pos h]
    exact ⟨⟨fun _ => by omega, fun _ => rfl⟩, fun hle => absurd hle (by omega)⟩
  · rw [if_neg h]
    exact ⟨⟨fun hbad => absurd hbad (by simp), fun hlt => absurd hlt (by omega)⟩,
      fun _ => rfl⟩

/-- Witness for canid_filter_success_iff at node ids 5 and 64. -/
theorem canid_filter_success_iff_witness :
    5 ≤ 63 ∧ nova_can_get_canid_filter 5 = some (5 <<< 7)
    ∧ nova_can_get_canid_filter 64 = none :=
  ⟨by decide, (canid_filter_success_iff 5).2 (by decide),
   ((canid_filter_success_iff 64).1).mpr (by decide)⟩

/-- Claim C1: with the mask from nova_can_get_canid_mask and the filter
from nova_can_get_canid_filter for a node id, a serialised in-range
Identifier passes the filter check exactly when its destination_id equals
that node id. -/
theorem canid_filter_matches_destination (n f : Nat) (i : NovaCAN_CANID)
    (hf : nova_can_get_canid_filter n = some f)
    (hp : i.priority < 8) (hport : i.port_id < 512)
    (hd : i.destination_id < 64) (hs : i.source_id < 64) :
    (nova_can_serialize_canid i &&& nova_can_get_canid_mask = f)
      ↔ i.destination_id = n := by
  unfold nova_can_get_canid_filter at hf
  by_cases hn : n > 0x3F
  · rw [if_pos hn] at hf; exact absurd hf (by simp)
  rw [if_neg hn] at hf
  have hfv : f = n * 128 := by
    have h7 : n <<< 7 = n * 128 := by rw [Nat.shiftLeft_eq]
    rw [h7] at hf
    exact (Option.some.inj hf).symm
  subst hfv
  rw [serialize_canid_eq_add i hp hport hd hs]
  obtain ⟨p, sv, sr, port, d, s⟩ := i
  simp only at hp hport hd hs ⊢
  have hsb : sv.toNat ≤ 1 := Bool.toNat_le sv
  have hrb : sr.toNat ≤ 1 := Bool.toNat_le sr
  have hmask : nova_can_get_canid_mask = 8064 := by decide
  rw [hmask]
  norm_num
  have s1 : p * 67108864 + sv.toNat * 33554432 + sr.toNat * 16777216
        + port * 16384 ||| d * 128
      = p * 67108864 + sv.toNat * 33554432 + sr.toNat * 16777216
        + port * 16384 + d * 128 :=
    lor_eq_add 14 _ _ (by omega) (by omega)
  have s2 : p * 67108864 + sv.toNat * 33554432 + sr.toNat * 16777216
        + port * 16384 + d * 128 ||| s
      = p * 67108864 + sv.toNat * 33554432 + sr.toNat * 16777216
        + port * 16384 + d * 128 + s :=
    lor_eq_add 7 _ _ (by omega) (by omega)
  rw [← s2, ← s1, and_lor_right, and_lor_right]
  have z1 : p * 67108864 + sv.toNat * 33554432 + sr.toNat * 16777216
        + port * 16384 &&& 8064 = 0 :=
    and_eq_zero_of_low_high 13 _ _ (by omega) (by omega)
  have z2 : s &&& 8064 = 0 := by
    rw [Nat.and_comm]
    exact and_eq_zero_of_low_high 7 _ _ (by omega) (by omega)
  have z3 : d * 128 &&& 8064 = d * 128 := by
    have e1 : d * 128 = d <<< 7 := by rw [Nat.shiftLeft_eq]
    have e2 : (8064 : Nat) = 63 <<< 7 := by decide
    rw [e1, e2, shiftLeft_and_shiftLeft]
    have e3 : d &&& 63 = d := by rw [and_mask63]; omega
    rw [e3]
  rw [z1, z2, z3]
  have z4 : (0 ||| d * 128) ||| 0 = d * 128 := by
    rw [lor_eq_add 13 0 (d * 128) (by omega) (by omega),
      lor_eq_add 0 (0 + d * 128) 0 (by omega) (by omega)]
    omega
  rw [z4]
  omega

/-- Witness for canid_filter_matches_destination: node id 7 with filter 896
and the identifier from the repository test suite. -/
theorem canid_filter_matches_destination_witness :
    nova_can_get_canid_filter 7 = some 896 ∧
    ((nova_can_serialize_canid ⟨3, false, false, 52, 7, 1⟩
        &&& nova_can_get_canid_mask = 896)
      ↔ (NovaCAN_CANID.mk 3 false false 52 7 1).destination_id = 7) :=
  ⟨by decide,
   canid_filter_matches_destination 7 896 ⟨3, false, false, 52, 7, 1⟩
     (by decide) (by decide) (by decide) (by decide) (by decide)⟩

/-- Counterexample to claim C5 as stated: for transfer_id 64 the serialised
byte sets bit 6, so decoding does not return the original flags together
with the transfer id reduced modulo 32 (the decoded end_of_transfer flag is
true although the header had false). -/
theorem frame_header_roundtrip_cex :
    ¬ (nova_can_deserialize_frame_header
        (nova_can_serialize_frame_header ⟨false, false, 64⟩)
      = ⟨false, false, 64 % 32⟩) := by decide

/-- Claim C5 (amended): for every FrameHeader whose transfer_id stays below
64 (so that it cannot bleed into the two flag bits), decoding the
serialised byte returns the same flags and the transfer_id reduced modulo
32; in particular for transfer_id up to 31 the round trip is the
identity. -/
theorem frame_header_roundtrip (h : NOVA_CAN_FRAME_HEADER)
    (ht : h.transfer_id < 64) :
    nova_can_deserialize_frame_header (nova_can_serialize_frame_header h)
      = ⟨h.start_of_transfer, h.end_of_transfer, h.transfer_id % 32⟩ := by
  obtain ⟨so, eo, t⟩ := h
  simp only at ht
  have hso : so.toNat ≤ 1 := Bool.toNat_le so
  have heo : eo.toNat ≤ 1 := Bool.toNat_le eo
  unfold nova_can_serialize_frame_header nova_can_deserialize_frame_header
  simp only [Nat.shiftLeft_eq]
  norm_num
  have e1 : so.toNat * 128 ||| eo.toNat * 64 = so.toNat * 128 + eo.toNat * 64 :=
    lor_eq_add 7 _ _ (by omega) (by omega)
  have e2 : so.toNat * 128 + eo.toNat * 64 ||| t
      = so.toNat * 128 + eo.toNat * 64 + t :=
    lor_eq_add 6 _ _ (by omega) (by omega)
  rw [e1, e2]
  simp only [NOVA_CAN_FRAME_HEADER.mk.injEq, Nat.shiftRight_eq_div_pow,
    and_mask1, and_mask31]
  cases so <;> cases eo <;>
    simp only [Bool.toNat_true, Bool.toNat_false] <;>
    refine ⟨?_, ?_, by omega⟩ <;>
    simp only [beq_iff_eq, beq_eq_false_iff_ne, ne_eq] <;> try omega

/-- Witness for frame_header_roundtrip at transfer_id 40 (reduced to 8). -/
theorem frame_header_roundtrip_witness :
    40 < 64 ∧
    nova_can_deserialize_frame_header
        (nova_can_serialize_frame_header ⟨true, false, 40⟩)
      = ⟨true, false, 40 % 32⟩ :=
  ⟨by decide, frame_header_roundtrip ⟨true, false, 40⟩ (by decide)⟩

/-- Claim C8: deserialising a raw id is a total function and only depends
on the low 29 bits: bits outside the 29-bit identifier range are ignored
in every decoded field. -/
theorem deserialize_canid_ignores_high_bits (raw : Nat) :
    nova_can_deserialize_canid raw
      = nova_can_deserialize_canid (raw &&& 0x1FFFFFFF) := by
  unfold nova_can_deserialize_canid
  rw [and_mask29]
  simp only [NOVA_CAN_FRAME_HEADER.mk.injEq, NovaCAN_CANID.mk.injEq,
    Nat.shiftRight_eq_div_pow, and_mask1, and_mask7, and_mask63, and_mask511]
  refine ⟨by omega, ?_, ?_, by omega, by omega, by omega⟩ <;>
    · congr 1
      omega

/-! ## Motor driver mock control loop (examples/motor_driver_mock.c)

The int16 C variables are modelled as Int together with wrap16, the
reduction of an int value into the int16 range performed by a C cast to
int16_t (two-complement wraparound).  The C arithmetic right shift on a
non-negative-or-negative int32 is the floor shift, which is Int.shiftRight.
Plain int arithmetic on values far from the int32 bounds is exact Int
arithmetic. -/

/-- ControlMode enum. -/
inductive ControlMode where
  | MODE_CURRENT
  | MODE_VELOCITY
  | MODE_POSITION
deriving DecidableEq, Repr

/-- The mutable state of the mock driver: control mode, the three command
targets and the controller and plant variables (all int16 in C). -/
structure MotorState where
  control_mode : ControlMode
  target_current : Int
  target_velocity : Int
  target_position : Int
  accel_q : Int
  vel_q : Int
  pos_q : Int
  vel_integral : Int
  vel_prev_error : Int
deriving DecidableEq, Repr

/-- The C cast of an int to int16_t: two-complement wraparound into the
range from -32768 to 32767. -/
def wrap16 (x : Int) : Int := (x + 32768) % 65536 - 32768

/-- clamp_int16 from the source: saturate an int into the int16 range. -/
def clamp_int16 (v : Int) : Int :=
  if v > 32767 then 32767 else if v < -32768 then -32768 else v

/-- Shared initial values of the file-scope control variables. -/
def initState : MotorState where
  control_mode := ControlMode.MODE_CURRENT
  target_current := 0
  target_velocity := 0
  target_position := 0
  accel_q := 0
  vel_q := 0
  pos_q := 0
  vel_integral := 0
  vel_prev_error := 0

/-- nova_can_motor_driver_current_command_callback: store the decoded
command value and switch to current mode. -/
def nova_can_motor_driver_current_command_callback (v : Int) (s : MotorState) :
    MotorState :=
  { s with control_mode := ControlMode.MODE_CURRENT, target_current := v }

/-- nova_can_motor_driver_velocity_command_callback: store the decoded
command value and switch to velocity mode. -/
def nova_can_motor_driver_velocity_command_callback (v : Int) (s : MotorState) :
    MotorState :=
  { s with control_mode := ControlMode.MODE_VELOCITY, target_velocity := v }

/-- nova_can_motor_driver_position_command_callback: store the decoded
command value and switch to position mode. -/
def nova_can_motor_driver_position_command_callback (v : Int) (s : MotorState) :
    MotorState :=
  { s with control_mode := ControlMode.MODE_POSITION, target_position := v }

/-- control_tick_and_publish: one invocation of the 100 ms control tick.
Telemetry publication is a transport side effect and carries no state, so
the embedding returns the updated state only.  The first component of the
per-mode step is desired_accel, the second the updated vel_integral, the
third the updated vel_prev_error. -/
def control_tick_and_publish (s : MotorState) : MotorState :=
  let step : Int × Int × Int :=
    match s.control_mode with
    | ControlMode.MODE_CURRENT =>
        (wrap16 (Int.tdiv s.target_current 2), s.vel_integral, s.vel_prev_error)
    | ControlMode.MODE_VELOCITY =>
        let vel_error := wrap16 (s.target_velocity - s.vel_q)
        let v_int0 := s.vel_integral + vel_error
        let v_int1 := if v_int0 > 3000 then 3000 else v_int0
        let v_int := if v_int1 < -3000 then -3000 else v_int1
        let acc_cmd := 4 * vel_error + 1 * v_int
        (wrap16 (acc_cmd >>> 3), v_int, vel_error)
    | ControlMode.MODE_POSITION =>
        let pos_error := wrap16 (s.target_position - s.pos_q)
        let vel_target_from_pos := wrap16 ((2 * pos_error) >>> 2)
        let vel_error := wrap16 (vel_target_from_pos - s.vel_q)
        let v_int0 := s.vel_integral + vel_error
        let v_int1 := if v_int0 > 3000 then 3000 else v_int0
        let v_int := if v_int1 < -3000 then -3000 else v_int1
        let acc_cmd := 4 * vel_error + 1 * v_int
        (wrap16 (acc_cmd >>> 3), v_int, vel_error)
  let delta_a0 := wrap16 (step.1 - s.accel_q)
  let delta_a1 := if delta_a0 > 5 then 5 else delta_a0
  let delta_a := if delta_a1 < -5 then -5 else delta_a1
  let accel_new := wrap16 (s.accel_q + delta_a)
  let vel_new := clamp_int16 (s.vel_q + accel_new)
  let pos_new := clamp_int16 (s.pos_q + vel_new)
  { s with accel_q := accel_new, vel_q := vel_new, pos_q := pos_new,
           vel_integral := step.2.1, vel_prev_error := step.2.2 }

/-- Iterated control ticks. -/
def runTicks : Nat → MotorState → MotorState
  | 0, s => s
  | n + 1, s => runTicks n (control_tick_and_publish s)

set_option maxRecDepth 100000

/-- Splitting an iterated tick run into two runs. -/
theorem runTicks_add (m n : Nat) (s : MotorState) :
    runTicks (m + n) s = runTicks n (runTicks m s) := by
  induction m generalizing s with
  | zero => rw [Nat.zero_add]; rfl
  | succ k ih =>
      have h : k + 1 + n = (k + n) + 1 := by omega
      rw [h]
      show runTicks (k + n) (control_tick_and_publish s) = _
      rw [ih]
      rfl

/-- The state right after the first received command of the jerk-bound
counterexample run: a Current command with value -32768. -/
def sA : MotorState :=
  nova_can_motor_driver_current_command_callback (-32768) initState

/-- Shape of the control state during the first phase of the
counterexample run (current mode, plant pinned at the negative int16
bound, acceleration parameter a). -/
def st1 (a : Int) : MotorState where
  control_mode := ControlMode.MODE_CURRENT
  target_current := -32768
  target_velocity := 0
  target_position := 0
  accel_q := a
  vel_q := -32768
  pos_q := -32768
  vel_integral := 0
  vel_prev_error := 0

/-- Shape of the control state during the second phase of the
counterexample run (velocity mode with target -1, saturated integral). -/
def st2 (a : Int) : MotorState where
  control_mode := ControlMode.MODE_VELOCITY
  target_current := -32768
  target_velocity := -1
  target_position := 0
  accel_q := a
  vel_q := -32768
  pos_q := -32768
  vel_integral := 3000
  vel_prev_error := 32767

theorem p1c1 : runTicks 200 sA = st1 (-1000) := by decide

theorem p1c2 : runTicks 200 (st1 (-1000)) = st1 (-2000) := by decide

theorem p1c3 : runTicks 200 (st1 (-2000)) = st1 (-3000) := by decide

theorem p1c4 : runTicks 200 (st1 (-3000)) = st1 (-4000) := by decide

theorem p1c5 : runTicks 200 (st1 (-4000)) = st1 (-5000) := by decide

theorem p1c6 : runTicks 200 (st1 (-5000)) = st1 (-6000) := by decide

theorem p1c7 : runTicks 200 (st1 (-6000)) = st1 (-7000) := by decide

theorem p1c8 : runTicks 200 (st1 (-7000)) = st1 (-8000) := by decide

theorem p1c9 : runTicks 200 (st1 (-8000)) = st1 (-9000) := by decide

theorem p1c10 : runTicks 200 (st1 (-9000)) = st1 (-10000) := by decide

theorem p1c11 : runTicks 200 (st1 (-10000)) = st1 (-11000) := by decide

theorem p1c12 : runTicks 200 (st1 (-11000)) = st1 (-12000) := by decide

theorem p1c13 : runTicks 200 (st1 (-12000)) = st1 (-13000) := by decide

theorem p1c14 : runTicks 200 (st1 (-13000)) = st1 (-14000) := by decide

theorem p1c15 : runTicks 200 (st1 (-14000)) = st1 (-15000) := by decide

theorem p1c16 : runTicks 200 (st1 (-15000)) = st1 (-16000) := by decide

theorem p1c17 : runTicks 77 (st1 (-16000)) = st1 (-16384) := by decide


/-- After the Current command with value -32768, 3277 ticks drive the
acceleration down (at the jerk rate) to -16384 with the plant pinned at
the negative int16 bound. -/
theorem phase1_run : runTicks 3277 sA = st1 (-16384) := by
  rw [show (3277:Nat) = 200 + 3077 from rfl, runTicks_add, p1c1]
  rw [show (3077:Nat) = 200 + 2877 from rfl, runTicks_add, p1c2]
  rw [show (2877:Nat) = 200 + 2677 from rfl, runTicks_add, p1c3]
  rw [show (2677:Nat) = 200 + 2477 from rfl, runTicks_add, p1c4]
  rw [show (2477:Nat) = 200 + 2277 from rfl, runTicks_add, p1c5]
  rw [show (2277:Nat) = 200 + 2077 from rfl, runTicks_add, p1c6]
  rw [show (2077:Nat) = 200 + 1877 from rfl, runTicks_add, p1c7]
  rw [show (1877:Nat) = 200 + 1677 from rfl, runTicks_add, p1c8]
  rw [show (1677:Nat) = 200 + 1477 from rfl, runTicks_add, p1c9]
  rw [show (1477:Nat) = 200 + 1277 from rfl, runTicks_add, p1c10]
  rw [show (1277:Nat) = 200 + 1077 from rfl, runTicks_add, p1c11]
  rw [show (1077:Nat) = 200 + 877 from rfl, runTicks_add, p1c12]
  rw [show (877:Nat) = 200 + 677 from rfl, runTicks_add, p1c13]
  rw [show (677:Nat) = 200 + 477 from rfl, runTicks_add, p1c14]
  rw [show (477:Nat) = 200 + 277 from rfl, runTicks_add, p1c15]
  rw [show (277:Nat) = 200 + 77 from rfl, runTicks_add, p1c16]
  exact p1c17


/-- The state right after the second received command of the run: a
Velocity command with value -1, arriving after phase 1. -/
def sB : MotorState :=
  nova_can_motor_driver_velocity_command_callback (-1) (runTicks 3277 sA)

/-- Phase 2 start state, written out. -/
def sB1 : MotorState where
  control_mode := ControlMode.MODE_VELOCITY
  target_current := -32768
  target_velocity := -1
  target_position := 0
  accel_q := -16384
  vel_q := -32768
  pos_q := -32768
  vel_integral := 0
  vel_prev_error := 0

theorem sB_eq : sB = sB1 := by
  unfold sB
  rw [phase1_run]
  decide

theorem p2c1 : runTicks 200 sB1 = st2 (-17384) := by decide

theorem p2c2 : runTicks 200 (st2 (-17384)) = st2 (-18384) := by decide

theorem p2c3 : runTicks 200 (st2 (-18384)) = st2 (-19384) := by decide

theorem p2c4 : runTicks 200 (st2 (-19384)) = st2 (-20384) := by decide

theorem p2c5 : runTicks 200 (st2 (-20384)) = st2 (-21384) := by decide

theorem p2c6 : runTicks 200 (st2 (-21384)) = st2 (-22384) := by decide

theorem p2c7 : runTicks 200 (st2 (-22384)) = st2 (-23384) := by decide

theorem p2c8 : runTicks 200 (st2 (-23384)) = st2 (-24384) := by decide

theorem p2c9 : runTicks 200 (st2 (-24384)) = st2 (-25384) := by decide

theorem p2c10 : runTicks 200 (st2 (-25384)) = st2 (-26384) := by decide

theorem p2c11 : runTicks 200 (st2 (-26384)) = st2 (-27384) := by decide

theorem p2c12 : runTicks 200 (st2 (-27384)) = st2 (-28384) := by decide

theorem p2c13 : runTicks 200 (st2 (-28384)) = st2 (-29384) := by decide

theorem p2c14 : runTicks 200 (st2 (-29384)) = st2 (-30384) := by decide

theorem p2c15 : runTicks 200 (st2 (-30384)) = st2 (-31384) := by decide

theorem p2c16 : runTicks 200 (st2 (-31384)) = st2 (-32384) := by decide

theorem p2c17 : runTicks 76 (st2 (-32384)) = st2 (-32764) := by decide


/-- After the Velocity command with value -1, the wrapped velocity error
keeps the jerk-limited acceleration falling by 5 per tick; 3276 further
ticks reach acceleration -32764. -/
theorem phase2_run : runTicks 3276 sB1 = st2 (-32764) := by
  rw [show (3276:Nat) = 200 + 3076 from rfl, runTicks_add, p2c1]
  rw [show (3076:Nat) = 200 + 2876 from rfl, runTicks_add, p2c2]
  rw [show (2876:Nat) = 200 + 2676 from rfl, runTicks_add, p2c3]
  rw [show (2676:Nat) = 200 + 2476 from rfl, runTicks_add, p2c4]
  rw [show (2476:Nat) = 200 + 2276 from rfl, runTicks_add, p2c5]
  rw [show (2276:Nat) = 200 + 2076 from rfl, runTicks_add, p2c6]
  rw [show (2076:Nat) = 200 + 1876 from rfl, runTicks_add, p2c7]
  rw [show (1876:Nat) = 200 + 1676 from rfl, runTicks_add, p2c8]
  rw [show (1676:Nat) = 200 + 1476 from rfl, runTicks_add, p2c9]
  rw [show (1476:Nat) = 200 + 1276 from rfl, runTicks_add, p2c10]
  rw [show (1276:Nat) = 200 + 1076 from rfl, runTicks_add, p2c11]
  rw [show (1076:Nat) = 200 + 876 from rfl, runTicks_add, p2c12]
  rw [show (876:Nat) = 200 + 676 from rfl, runTicks_add, p2c13]
  rw [show (676:Nat) = 200 + 476 from rfl, runTicks_add, p2c14]
  rw [show (476:Nat) = 200 + 276 from rfl, runTicks_add, p2c15]
  rw [show (276:Nat) = 200 + 76 from rfl, runTicks_add, p2c16]
  exact p2c17


/-- Claim C3 exhibit: on the concrete reachable run consisting of a
Current command with value -32768, 3277 ticks, a Velocity command with
value -1 and 3276 further ticks, the next control tick wraps accel_q from
-32764 to 32767: the acceleration changes by 65531 in one tick, far above
the claimed per-tick jerk bound of 5.  The int16 cast in the delta and
accel updates wraps around instead of saturating. -/
theorem jerk_bound_violated :
    (runTicks 3276 sB).accel_q = -32764
    ∧ (control_tick_and_publish (runTicks 3276 sB)).accel_q = 32767
    ∧ (control_tick_and_publish (runTicks 3276 sB)).accel_q
        - (runTicks 3276 sB).accel_q = 65531 := by
  have h2 : runTicks 3276 sB = st2 (-32764) := by
    rw [sB_eq]
    exact phase2_run
  rw [h2]
  refine ⟨by decide, by decide, by decide⟩

/-- Claim C4: the anti-windup bound holds after every control tick, in
every mode and for every command target, whenever it held before the
tick. -/
theorem vel_integral_bound (s : MotorState)
    (h : -3000 ≤ s.vel_integral ∧ s.vel_integral ≤ 3000) :
    -3000 ≤ (control_tick_and_publish s).vel_integral
    ∧ (control_tick_and_publish s).vel_integral ≤ 3000 := by
  rcases s with ⟨m, tc, tv, tp, a, v, p, vi, pe⟩
  simp only at h
  cases m <;>
    simp only [control_tick_and_publish, wrap16, clamp_int16,
      Int.shiftRight_eq_div_pow] <;>
    norm_num <;>
    omega

/-- Witness for vel_integral_bound at the initial state. -/
theorem vel_integral_bound_witness :
    (-3000 ≤ initState.vel_integral ∧ initState.vel_integral ≤ 3000)
    ∧ (-3000 ≤ (control_tick_and_publish initState).vel_integral
       ∧ (control_tick_and_publish initState).vel_integral ≤ 3000) :=
  ⟨by decide, vel_integral_bound initState (by decide)⟩

/-- Claim C7: starting from rest in velocity mode with target 100, one
control tick yields vel_integral 100 (the error), jerk-limits the desired
acceleration of 62 down to a change of 5, and leaves accel_q, vel_q and
pos_q all equal to 5. -/
theorem velocity_scenario_tick :
    control_tick_and_publish
        { initState with control_mode := ControlMode.MODE_VELOCITY,
                         target_velocity := 100 }
      = { initState with control_mode := ControlMode.MODE_VELOCITY,
                         target_velocity := 100,
                         accel_q := 5, vel_q := 5, pos_q := 5,
                         vel_integral := 100, vel_prev_error := 100 } := by
  decide

/-- Claim C10: a control tick mutates only the controller and plant
variables; the control mode and the three command targets are unchanged
by every tick. -/
theorem tick_preserves_mode_and_targets (s : MotorState) :
    (control_tick_and_publish s).control_mode = s.control_mode
    ∧ (control_tick_and_publish s).target_current = s.target_current
    ∧ (control_tick_and_publish s).target_velocity = s.target_velocity
    ∧ (control_tick_and_publish s).target_position = s.target_position :=
  ⟨rfl, rfl, rfl, rfl⟩

/-! ## Scheduler catch-up loop (examples/motor_driver_mock.c, main) -/

/-- The catch-up loop at the bottom of the scheduler main loop: while the
monotonic clock reading now has reached the deadline next_tick, invoke one
control tick and advance the deadline by exactly one 100 ms period
(100000000 ns).  The result is the number of ticks fired before the next
frame wait together with the final deadline.  The clock reading is the
value taken at the deadline check; ticks are modelled as instantaneous.
The seconds and nanoseconds pair of the C timespec is modelled as total
nanoseconds, which the carry normalisation in the source keeps in exact
correspondence.  The structural fuel argument only bounds the number of
loop iterations; sched_catchup below supplies a fuel value that is never
exhausted, and the claim theorem shows the result is the exact iteration
count independent of any larger fuel. -/
def sched_catchup_loop : Nat → Nat → Nat → Nat × Nat
  | 0, _, next_tick => (0, next_tick)
  | fuel + 1, now, next_tick =>
    if next_tick ≤ now then
      let r := sched_catchup_loop fuel now (next_tick + 100000000)
      (r.1 + 1, r.2)
    else (0, next_tick)

/-- The catch-up loop entered with sufficient fuel: each loop iteration
advances next_tick by a full period, so the distance in nanoseconds from
next_tick to just past now strictly dominates the iteration count. -/
def sched_catchup (now next_tick : Nat) : Nat × Nat :=
  sched_catchup_loop (now + 1 - next_tick) now next_tick

/-- When the deadline is still in the future the loop body never runs,
whatever the fuel. -/
theorem sched_catchup_loop_done (fuel now next_tick : Nat)
    (h : ¬ next_tick ≤ now) :
    sched_catchup_loop fuel now next_tick = (0, next_tick) := by
  cases fuel with
  | zero => rfl
  | succ f => simp only [sched_catchup_loop, if_neg h]

/-- Exact tick count of the catch-up loop, for any sufficient fuel: if the
clock reading sits in the half-open period window number N2 past the
deadline, exactly N2 plus one ticks fire and the deadline advances by that
many periods. -/
theorem sched_catchup_loop_exact (N2 : Nat) :
    ∀ fuel now next_tick : Nat, N2 + 1 ≤ fuel →
      next_tick + N2 * 100000000 ≤ now →
      now < next_tick + (N2 + 1) * 100000000 →
      sched_catchup_loop fuel now next_tick
        = (N2 + 1, next_tick + (N2 + 1) * 100000000) := by
  induction N2 with
  | zero =>
      intro fuel now next_tick hfuel h2 h3
      obtain ⟨f, rfl⟩ : ∃ f, fuel = f + 1 := ⟨fuel - 1, by omega⟩
      simp only [sched_catchup_loop, if_pos (show next_tick ≤ now by omega)]
      rw [sched_catchup_loop_done f now (next_tick + 100000000) (by omega)]
  | succ n ih =>
      intro fuel now next_tick hfuel h2 h3
      obtain ⟨f, rfl⟩ : ∃ f, fuel = f + 1 := ⟨fuel - 1, by omega⟩
      simp only [sched_catchup_loop, if_pos (show next_tick ≤ now by omega)]
      rw [ih f now (next_tick + 100000000) (by omega) (by omega) (by omega)]
      show (n + 1 + 1, next_tick + 100000000 + (n + 1) * 100000000) = _
      simp only [Prod.mk.injEq]
      exact ⟨trivial, by omega⟩

/-- Claim C9: if the loop is starved of frame events for exactly N whole
100 ms periods before its deadline check, exactly N control ticks fire
back to back, and the deadline afterwards has advanced by exactly N
periods (never reset to the current time). -/
theorem sched_catchup_exact (N : Nat) :
    1 ≤ N → ∀ now next_tick : Nat,
      next_tick + (N - 1) * 100000000 ≤ now →
      now < next_tick + N * 100000000 →
      sched_catchup now next_tick = (N, next_tick + N * 100000000) := by
  intro h1 now next_tick h2 h3
  obtain ⟨N2, rfl⟩ : ∃ m, N = m + 1 := ⟨N - 1, by omega⟩
  rw [Nat.add_sub_cancel] at h2
  exact sched_catchup_loop_exact N2 _ now next_tick (by omega) h2 h3

/-- Witness for sched_catchup_exact: deadline at 0, clock reading at
250 ms, three ticks fire. -/
theorem sched_catchup_exact_witness :
    (1 ≤ 3 ∧ 0 + (3 - 1) * 100000000 ≤ 250000000
      ∧ 250000000 < 0 + 3 * 100000000)
    ∧ sched_catchup 250000000 0 = (3, 0 + 3 * 100000000) :=
  ⟨⟨by decide, by decide, by decide⟩,
   sched_catchup_exact 3 (by decide) 250000000 0 (by decide) (by decide)⟩
